import Mathlib

/-!
Shallow embedding of the sana-api-wrapper service (`main.py`): a FastAPI
wrapper that turns a text prompt into a JPEG image via the SANA Sprint
diffusion pipeline, a 2:3 center crop, and an external `cjpeg` encoder
invoked through temporary files.

Modelling conventions:

* Python floats are modelled as exact rationals (`ℚ`).  The only float
  arithmetic in the program is the aspect-ratio computation
  `target_ratio = 2 / 3`, `int(width / target_ratio)`,
  `int(height * target_ratio)`; the operands there are nonnegative and far
  below the range where double rounding could move an `int(...)` across an
  integer boundary, so `int(...)` is modelled as the rational floor.
* The `DiffusionPipeline` object is an external collaborator; it is
  modelled as an opaque function of the call record (prompt, step count,
  generator) plus an ambient-entropy argument that it consults only when
  no seeded generator is supplied (this is the stated contract of the
  external model capability: reproducible when seeded, else not).
* `ml_models` (a Python dict with keys `"sana_sprint"` and `"device"`) is
  the record `ServerState` of two `Option` fields; a key being present in
  the dict corresponds to the field being `some`.
* Exceptions (`FileNotFoundError` from `subprocess.run` when `cjpeg` is
  absent, `CalledProcessError` from `check=True`, and a model failure
  inside the pipeline call) are modelled by explicit branches; the
  `except` clause of `api_generate_image` maps them all to an HTTP 500
  response whose detail is the fixed prefix `Image generation failed: `
  followed by the exception text.  Quote characters that Python would put
  around file names in exception messages are elided from the modelled
  strings.
* File-system effects (temporary-file creation with `delete=False`,
  removal, the `BMP` save format, the argument vector handed to
  `subprocess.run`) are recorded in an explicit `Trace`.
-/

namespace SanaApi

/-- An in-memory decoded image (`PIL.Image.Image`): `width`, `height`, and
an opaque `content` tag standing for the pixel data. -/
structure Image where
  width : Nat
  height : Nat
  content : Nat
  deriving DecidableEq, Repr

/-- A torch random generator as the wrapper builds it:
`torch.Generator(device=device).manual_seed(seed)`. -/
inductive Generator where
  | manualSeed (device : Option String) (seed : Int)
  deriving DecidableEq, Repr

/-- `torch.Generator(device=device).manual_seed(seed) if seed else None`
(main.py line 64).  Python truthiness of `seed : int | None`: falsy
exactly when `seed` is `None` or `0`. -/
def mkGenerator (device : Option String) (seed : Option Int) : Option Generator :=
  match seed with
  | some s => if s ≠ 0 then some (Generator.manualSeed device s) else none
  | none => none

/-- The keyword arguments the wrapper passes to the pipeline call
`pipeline(prompt=..., num_inference_steps=2, generator=...)`. -/
structure PipelineCall where
  prompt : String
  num_inference_steps : Nat
  generator : Option Generator
  deriving DecidableEq, Repr

/-- The opaque model capability: a function from the call record (and an
entropy argument) to a raw image. -/
abbrev PipeFn := PipelineCall → Nat → Image

/-- Modelled from the spec: the external model capability
(`DiffusionPipeline.__call__`) is opaque; per the spec its output is
reproducible for a fixed call record when a seeded generator is supplied,
and depends on ambient entropy (is non-deterministic) when the generator
is absent. -/
def runPipeline (pipe : PipeFn) (entropy : Nat) (call : PipelineCall) : Image :=
  match call.generator with
  | some _ => pipe call 0
  | none => pipe call entropy

/-- `target_ratio = 2 / 3` (main.py line 74); the Python float is modelled
as the exact rational. -/
def target_ratio : ℚ := 2 / 3

/-- Python `int(...)` applied to a nonnegative rational: truncation toward
zero, which on nonnegative arguments is the floor. -/
def pyInt (q : ℚ) : ℤ := ⌊q⌋

/-- The target crop dimensions of `generate_image` (main.py lines 75-81):
`target_width = width; target_height = int(width / target_ratio)`, and if
that height exceeds the source height, `target_height = height;
target_width = int(height * target_ratio)`. -/
def cropTargets (width height : Nat) : Nat × Nat :=
  let target_width := width
  let target_height := (pyInt ((width : ℚ) / target_ratio)).toNat
  if target_height > height then
    ((pyInt ((height : ℚ) * target_ratio)).toNat, height)
  else
    (target_width, target_height)

/-- A crop rectangle `(left, top, right, bottom)` as passed to
`Image.crop`. -/
structure CropBox where
  left : Nat
  top : Nat
  right : Nat
  bottom : Nat
  deriving DecidableEq, Repr

/-- The centered crop rectangle of `generate_image` (main.py lines 83-86):
`left = (width - target_width) // 2`, `top = (height - target_height) // 2`,
`right = left + target_width`, `bottom = top + target_height`.  The
subtractions never go below zero because the target dimensions never
exceed the source (proved below), so `Nat` arithmetic agrees with the
Python integer arithmetic. -/
def cropRect (width height : Nat) : CropBox :=
  let target_width := (cropTargets width height).1
  let target_height := (cropTargets width height).2
  let left := (width - target_width) / 2
  let top := (height - target_height) / 2
  { left := left, top := top, right := left + target_width, bottom := top + target_height }

/-- `image.crop((left, top, right, bottom))` (main.py line 87): the result
has the dimensions of the rectangle; the pixel region keeps the content
tag of the source. -/
def cropImage (image : Image) (box : CropBox) : Image :=
  { width := box.right - box.left, height := box.bottom - box.top, content := image.content }

/-- `generate_image(pipeline, device, prompt, seed)` (main.py lines 60-90):
builds the generator, calls the pipeline with `num_inference_steps=2`, and
center-crops the result to ratio 2:3.  The returned pair records the call
made to the pipeline together with the cropped image (logging and timing
lines are side-effect-free for the data model and are not modelled). -/
def generate_image (pipeline : PipeFn) (entropy : Nat) (device : Option String)
    (prompt : String) (seed : Option Int) : PipelineCall × Image :=
  let generator := mkGenerator device seed
  let call : PipelineCall :=
    { prompt := prompt, num_inference_steps := 2, generator := generator }
  let image := runPipeline pipeline entropy call
  let box := cropRect image.width image.height
  (call, cropImage image box)

/-- The request body model (main.py lines 56-58): pydantic validates only
the shape `prompt : str`, `seed : int | None = None`; there is no content
validation. -/
structure GenerationRequest where
  prompt : String
  seed : Option Int := none
  deriving DecidableEq, Repr

/-- What the endpoint returns: either a body with a media type
(`fastapi.responses.Response`) or an `HTTPException` with a status code
and a detail string. -/
inductive Resp where
  | ok (content : List Nat) (media_type : String)
  | httpError (status : Nat) (detail : String)
  deriving DecidableEq, Repr

/-- Observable side effects of one request: pipeline calls made, temporary
files created/removed, the format the intermediate file was saved in, and
the argument vector handed to `subprocess.run` (if a process was
launched). -/
structure Trace where
  calls : List PipelineCall
  bmpCreated : Bool
  bmpSavedFormat : Option String
  jpgCreated : Bool
  encoderInvocation : Option (List String)
  bmpRemoved : Bool
  jpgRemoved : Bool
  deriving DecidableEq, Repr

/-- The trace of a request that performed no side effects. -/
def Trace.empty : Trace :=
  { calls := [], bmpCreated := false, bmpSavedFormat := none, jpgCreated := false,
    encoderInvocation := none, bmpRemoved := false, jpgRemoved := false }

/-- `ml_models` (main.py line 23): the module-level dict, with the two
keys the code ever writes. -/
structure ServerState where
  sana_sprint : Option PipeFn
  device : Option String

/-- The empty `ml_models = {}` dict at import time. -/
def initialState : ServerState :=
  { sana_sprint := none, device := none }

/-- Ambient environment of one request: entropy feeding the unseeded
pipeline, whether the pipeline call raises (`InferenceError`), whether the
`cjpeg` binary is resolvable on `PATH`, the exit code it returns when run,
the bytes it writes on success, and the OS-chosen temporary file names. -/
structure Env where
  entropy : Nat
  synthRaises : Bool
  synthErrText : String
  encoderPresent : Bool
  encoderExit : Nat
  encoderOutput : Image → List Nat
  tmpBmp : String
  tmpJpg : String

/-- The pipeline call that `generate_image` makes for a given request. -/
def pipelineCallOf (device : Option String) (req : GenerationRequest) : PipelineCall :=
  { prompt := req.prompt, num_inference_steps := 2, generator := mkGenerator device req.seed }

/-- The argument vector of the encoder subprocess (main.py lines 120-123):
`["cjpeg", "-quality", "85", "-progressive", "-outfile", tmp_jpg.name, tmp_bmp.name]`. -/
def cjpegArgs (tmpJpgName tmpBmpName : String) : List String :=
  ["cjpeg", "-quality", "85", "-progressive", "-outfile", tmpJpgName, tmpBmpName]

/-- Text of the `FileNotFoundError` Python raises when `subprocess.run`
cannot resolve `cjpeg` (quote characters elided). -/
def fileNotFoundText : String :=
  "[Errno 2] No such file or directory: cjpeg"

/-- Text of the `CalledProcessError` raised by `check=True` on a nonzero
exit status (the repr of the command list elided). -/
def calledProcessText (returncode : Nat) : String :=
  "Command cjpeg returned non-zero exit status " ++ toString returncode ++ "."

/-- Trace of a request that reached the encoder: the pipeline was called
once, both temporary files were created (`delete=False`), the bitmap was
saved in `BMP` format, the subprocess was launched with the fixed argument
vector, and neither file was removed (the handler contains no removal). -/
def encodeTrace (call : PipelineCall) (env : Env) : Trace :=
  { calls := [call], bmpCreated := true, bmpSavedFormat := some ("BMP"), jpgCreated := true,
    encoderInvocation := some (cjpegArgs env.tmpJpg env.tmpBmp),
    bmpRemoved := false, jpgRemoved := false }

/-- `POST /generate` (main.py lines 96-130).  Reads `ml_models`; returns
500 with detail `Image generation model not available` when the pipeline
is missing; otherwise runs `generate_image`, saves the image to a
temporary `.bmp` (`delete=False`), opens a temporary `.jpg`
(`delete=False`), runs `cjpeg` with `check=True`, and on success reads the
output bytes and returns them as `image/jpeg`.  Every exception inside the
`try` block (pipeline failure, missing encoder, nonzero exit) is caught by
the single `except` clause and becomes a 500 whose detail is
`Image generation failed: ` followed by the exception text.  The handler
never writes `ml_models`, so the state is returned unchanged, and it never
removes the temporary files. -/
def api_generate_image (s : ServerState) (env : Env) (req : GenerationRequest) :
    Resp × Trace × ServerState :=
  match s.sana_sprint with
  | none =>
      (Resp.httpError 500 ("Image generation model not available"), Trace.empty, s)
  | some pipeline =>
      if env.synthRaises then
        (Resp.httpError 500 ("Image generation failed: " ++ env.synthErrText),
          { Trace.empty with calls := [pipelineCallOf s.device req] }, s)
      else
        let r := generate_image pipeline env.entropy s.device req.prompt req.seed
        if env.encoderPresent then
          if env.encoderExit = 0 then
            (Resp.ok (env.encoderOutput r.2) "image/jpeg", encodeTrace r.1 env, s)
          else
            (Resp.httpError 500
                ("Image generation failed: " ++ calledProcessText env.encoderExit),
              encodeTrace r.1 env, s)
        else
          (Resp.httpError 500 ("Image generation failed: " ++ fileNotFoundText),
            { encodeTrace r.1 env with encoderInvocation := none }, s)

/-- The `/health` response body (main.py lines 92-94):
`{"status": "ok", "model_loaded": "sana_sprint" in ml_models}`. -/
structure HealthResponse where
  status : String
  model_loaded : Bool
  deriving DecidableEq, Repr

/-- `GET /health` (main.py lines 92-94). -/
def health_check (s : ServerState) : HealthResponse :=
  { status := "ok", model_loaded := s.sana_sprint.isSome }

/-- `device = "cuda" if torch.cuda.is_available() else "cpu"`
(main.py line 27). -/
def selectDevice (cudaAvailable : Bool) : String :=
  if cudaAvailable then ("cuda") else ("cpu")

/-- The startup half of the `lifetime` lifespan (main.py lines 27-40):
select the device, load the pipeline from the configured path, and on
success store the pipeline and device into `ml_models`; on failure raise
`RuntimeError` (the keys are never written, so the dict is unchanged). -/
def lifetime_start (cudaAvailable : Bool) (load : String → Except String PipeFn)
    (model_path : String) (s : ServerState) : Except String ServerState :=
  let device := selectDevice cudaAvailable
  match load model_path with
  | Except.ok pipeline =>
      Except.ok { s with sana_sprint := some pipeline, device := some device }
  | Except.error e => Except.error ("Failed to load model: " ++ e)

/-- The shutdown half of the `lifetime` lifespan (main.py lines 46-52):
the `finally` block deletes the `"sana_sprint"` key if present (the
`"device"` key is left in place). -/
def lifetime_stop (s : ServerState) : ServerState :=
  { s with sana_sprint := none }

/-! Concrete fixtures used by witnesses and counterexamples. -/

/-- A probe model: a raw 4 x 6 image whose content tag is the entropy
argument, making entropy-sensitivity observable. -/
def probePipe : PipeFn := fun _ e => { width := 4, height := 6, content := e }

/-- A server state with the probe model loaded on `cpu`. -/
def loadedState : ServerState :=
  { sana_sprint := some probePipe, device := some ("cpu") }

/-- A healthy environment: encoder present, exit code 0, deterministic
byte output. -/
def goodEnv : Env :=
  { entropy := 0, synthRaises := false, synthErrText := "",
    encoderPresent := true, encoderExit := 0,
    encoderOutput := fun img => [img.width, img.height, img.content],
    tmpBmp := "/tmp/a.bmp", tmpJpg := "/tmp/b.jpg" }

/-- Environment in which the `cjpeg` binary is absent from `PATH`. -/
def envNoEncoder : Env :=
  { goodEnv with encoderPresent := false }

/-- Environment in which the encoder runs but exits with status 1. -/
def envEncoderFail : Env :=
  { goodEnv with encoderExit := 1 }

/-- Environment in which the pipeline call itself raises, with exception
text equal to the missing-encoder text (used to show the two failures are
indistinguishable at the response). -/
def envSynthFail : Env :=
  { goodEnv with synthRaises := true, synthErrText := fileNotFoundText }

/-- A harmless concrete request. -/
def probeReq : GenerationRequest :=
  { prompt := "a cat", seed := none }

/-- A loader that succeeds with the probe model (for exercising
`lifetime_start`). -/
def okLoad : String → Except String PipeFn :=
  fun _ => Except.ok probePipe

/-- The default model location. -/
def modelPath : String := "./sana-local"

/-- The state `lifetime_start` produces from `initialState` with a working
accelerator and the probe loader. -/
def startedState : ServerState :=
  { sana_sprint := some probePipe, device := some ("cuda") }

/-- The geometric contract of the center crop: the rectangle lies within
the source bounds (nonnegativity is given by the `Nat` type), is no larger
than the source in either dimension, has width/height ratio 2/3 within one
pixel of rounding (`|3 shorter side - 2 longer side| <= 3`, stated as two
one-sided inequalities), and is centered within one pixel (the sum
`left + right` differs from `width` by at most one, likewise
vertically). -/
def cropWithinSpec (w h : Nat) : Prop :=
  (cropRect w h).left ≤ (cropRect w h).right ∧
  (cropRect w h).right ≤ w ∧
  (cropRect w h).top ≤ (cropRect w h).bottom ∧
  (cropRect w h).bottom ≤ h ∧
  (cropRect w h).right - (cropRect w h).left ≤ w ∧
  (cropRect w h).bottom - (cropRect w h).top ≤ h ∧
  3 * ((cropRect w h).right - (cropRect w h).left) ≤
    2 * ((cropRect w h).bottom - (cropRect w h).top) + 3 ∧
  2 * ((cropRect w h).bottom - (cropRect w h).top) ≤
    3 * ((cropRect w h).right - (cropRect w h).left) + 3 ∧
  w ≤ (cropRect w h).left + (cropRect w h).right + 1 ∧
  (cropRect w h).left + (cropRect w h).right ≤ w ∧
  h ≤ (cropRect w h).top + (cropRect w h).bottom + 1 ∧
  (cropRect w h).top + (cropRect w h).bottom ≤ h

/-! ## Helper lemmas -/

/-- `int(width / (2/3))` is `3 * width / 2` in integer arithmetic. -/
theorem pyInt_div_ratio (w : Nat) : (pyInt ((w : ℚ) / target_ratio)).toNat = 3 * w / 2 := by
  have h1 : (w : ℚ) / target_ratio = ((3 * w : ℕ) : ℚ) / ((2 : ℕ) : ℚ) := by
    rw [target_ratio]
    push_cast
    ring
  rw [pyInt, h1, Rat.floor_natCast_div_natCast]
  omega

/-- `int(height * (2/3))` is `2 * height / 3` in integer arithmetic. -/
theorem pyInt_mul_ratio (h : Nat) : (pyInt ((h : ℚ) * target_ratio)).toNat = 2 * h / 3 := by
  have h1 : (h : ℚ) * target_ratio = ((2 * h : ℕ) : ℚ) / ((3 : ℕ) : ℚ) := by
    rw [target_ratio]
    push_cast
    ring
  rw [pyInt, h1, Rat.floor_natCast_div_natCast]
  omega

/-- Closed form of the target crop dimensions over `Nat` arithmetic. -/
theorem cropTargets_eq (w h : Nat) :
    cropTargets w h = if h < 3 * w / 2 then (2 * h / 3, h) else (w, 3 * w / 2) := by
  unfold cropTargets
  rw [pyInt_div_ratio, pyInt_mul_ratio]

/-- The crop rectangle of the 4 x 6 probe image is the identity crop. -/
theorem cropRect_four_six : cropRect 4 6 = { left := 0, top := 0, right := 4, bottom := 6 } := by
  unfold cropRect
  rw [cropTargets_eq]
  decide

/-- Evaluation of `generate_image` on the probe model: the raw 4 x 6
image is already 2:3, so the crop is the identity; the content records the
entropy exactly when no seeded generator was built. -/
theorem gen_probe_eval (e : Nat) (p : String) (sd : Option Int) :
    generate_image probePipe e (some ("cpu")) p sd =
      ({ prompt := p, num_inference_steps := 2, generator := mkGenerator (some ("cpu")) sd },
        { width := 4, height := 6,
          content := match mkGenerator (some ("cpu")) sd with | some _ => 0 | none => e }) := by
  unfold generate_image runPipeline probePipe
  cases hg : mkGenerator (some ("cpu")) sd with
  | none => simp [hg, cropRect_four_six, cropImage]
  | some g => simp [hg, cropRect_four_six, cropImage]

/-- Seed `0` is falsy in Python, so no generator is built. -/
theorem mkGenerator_zero (d : Option String) : mkGenerator d (some 0) = none := by
  simp [mkGenerator]

/-- The pipeline call record produced by `generate_image`. -/
theorem generate_call (pipeline : PipeFn) (entropy : Nat) (device : Option String)
    (prompt : String) (seed : Option Int) :
    (generate_image pipeline entropy device prompt seed).1 =
      { prompt := prompt, num_inference_steps := 2, generator := mkGenerator device seed } :=
  rfl

/-- `generate_image` treats seed `0` exactly like seed `None`. -/
theorem generate_image_zero (pipeline : PipeFn) (entropy : Nat) (device : Option String)
    (prompt : String) :
    generate_image pipeline entropy device prompt (some 0) =
      generate_image pipeline entropy device prompt none := by
  simp only [generate_image, mkGenerator_zero]
  rfl

/-- With the model loaded, every branch of the handler makes exactly the
one pipeline call determined by the request. -/
theorem api_calls_loaded (s : ServerState) (env : Env) (req : GenerationRequest)
    (pipeline : PipeFn) (hs : s.sana_sprint = some pipeline) :
    (api_generate_image s env req).2.1.calls = [pipelineCallOf s.device req] := by
  unfold api_generate_image
  rw [hs]
  by_cases hr : env.synthRaises <;> by_cases hp : env.encoderPresent <;>
    by_cases he : env.encoderExit = 0 <;>
      simp [hr, hp, he, encodeTrace, generate_call, pipelineCallOf]

/-! ## Claim theorems -/

/-- C1 counterexample: on a successful `POST /generate` (encoder present,
exit code 0) the request completes with the JPEG bytes, yet both
temporary files were created and neither was removed: the handler opens
them with `delete=False` and contains no removal, so the claimed cleanup
on the success path does not happen. -/
theorem c1_counterexample :
    (api_generate_image loadedState goodEnv probeReq).1 = Resp.ok [4, 6, 0] ("image/jpeg") ∧
    (api_generate_image loadedState goodEnv probeReq).2.1 =
      { calls := [{ prompt := "a cat", num_inference_steps := 2, generator := none }],
        bmpCreated := true, bmpSavedFormat := some ("BMP"), jpgCreated := true,
        encoderInvocation :=
          some (["cjpeg", "-quality", "85", "-progressive", "-outfile", "/tmp/b.jpg", "/tmp/a.bmp"]),
        bmpRemoved := false, jpgRemoved := false } := by
  constructor <;>
    simp [api_generate_image, loadedState, goodEnv, probeReq, gen_probe_eval, encodeTrace,
      cjpegArgs, mkGenerator]

/-- C1 amended: the two temporary files (intermediate BMP and JPEG
output) are never removed by the request handler on any exit path; on
every path that produces a success response both files were created (with
`delete=False`) and both persist after the request completes. -/
theorem c1_amended_no_cleanup (s : ServerState) (env : Env) (req : GenerationRequest) :
    (api_generate_image s env req).2.1.bmpRemoved = false ∧
    (api_generate_image s env req).2.1.jpgRemoved = false ∧
    ((∃ c m, (api_generate_image s env req).1 = Resp.ok c m) →
      (api_generate_image s env req).2.1.bmpCreated = true ∧
      (api_generate_image s env req).2.1.jpgCreated = true) := by
  cases hs : s.sana_sprint with
  | none => simp [api_generate_image, hs, Trace.empty]
  | some pipeline =>
      by_cases hr : env.synthRaises <;> by_cases hp : env.encoderPresent <;>
        by_cases he : env.encoderExit = 0 <;>
          simp [api_generate_image, hs, hr, hp, he, encodeTrace, Trace.empty]

/-- C1 witness: a concrete successful request after which both temporary
files exist and were not removed. -/
theorem c1_witness :
    (∃ c m, (api_generate_image loadedState goodEnv probeReq).1 = Resp.ok c m) ∧
    ((api_generate_image loadedState goodEnv probeReq).2.1.bmpCreated = true ∧
      (api_generate_image loadedState goodEnv probeReq).2.1.jpgCreated = true) ∧
    (api_generate_image loadedState goodEnv probeReq).2.1.bmpRemoved = false := by
  have hex : ∃ c m, (api_generate_image loadedState goodEnv probeReq).1 = Resp.ok c m := by
    refine ⟨[4, 6, 0], "image/jpeg", ?_⟩
    simp [api_generate_image, loadedState, goodEnv, probeReq, gen_probe_eval, mkGenerator]
  exact ⟨hex, (c1_amended_no_cleanup loadedState goodEnv probeReq).2.2 hex,
    (c1_amended_no_cleanup loadedState goodEnv probeReq).1⟩

/-- C2 counterexample: for the provided seed `0` no seeded generator is
built (`if seed` is falsy at `0`), and two runs that differ only in
ambient entropy produce different raw output, so the determinism claim
fails at seed `0`. -/
theorem c2_counterexample :
    mkGenerator (some ("cpu")) (some 0) = none ∧
    generate_image probePipe 0 (some ("cpu")) "a cat" (some 0) ≠
      generate_image probePipe 1 (some ("cpu")) "a cat" (some 0) := by
  constructor
  · simp [mkGenerator]
  · rw [gen_probe_eval, gen_probe_eval]
    simp [mkGenerator]

/-- C2 amended: for every provided seed at least `1`, a generator
deterministically seeded with that seed drives the pipeline, and two
`generate_image` runs with the same prompt, step count, model and device
produce identical output regardless of ambient entropy; seed `0` is the
exception, behaving like an absent seed. -/
theorem c2_amended_determinism_pos_seed (pipeline : PipeFn) (e1 e2 : Nat)
    (device : Option String) (prompt : String) (seed : Int) (hs : 1 ≤ seed) :
    mkGenerator device (some seed) = some (Generator.manualSeed device seed) ∧
    generate_image pipeline e1 device prompt (some seed) =
      generate_image pipeline e2 device prompt (some seed) := by
  have hz : seed ≠ 0 := by omega
  have hm : mkGenerator device (some seed) = some (Generator.manualSeed device seed) := by
    simp [mkGenerator, hz]
  refine ⟨hm, ?_⟩
  simp only [generate_image, runPipeline, hm]

/-- C2 witness: seed `7` drives a seeded generator and two runs with
different entropy agree. -/
theorem c2_witness :
    (1 : Int) ≤ 7 ∧
    generate_image probePipe 0 (some ("cpu")) "a cat" (some 7) =
      generate_image probePipe 1 (some ("cpu")) "a cat" (some 7) :=
  ⟨by decide,
    (c2_amended_determinism_pos_seed probePipe 0 1 (some ("cpu")) "a cat" 7 (by decide)).2⟩

/-- C3 counterexample: a request with the empty prompt is not rejected:
the handler invokes the model once with the empty prompt and the request
succeeds end to end. -/
theorem c3_counterexample :
    (api_generate_image loadedState goodEnv { prompt := "", seed := none }).1 =
      Resp.ok [4, 6, 0] ("image/jpeg") ∧
    (api_generate_image loadedState goodEnv { prompt := "", seed := none }).2.1.calls =
      [{ prompt := "", num_inference_steps := 2, generator := none }] := by
  constructor <;>
    simp [api_generate_image, loadedState, goodEnv, gen_probe_eval, encodeTrace, mkGenerator]

/-- C3 amended: the service performs no prompt-content validation: with
the model loaded, a request whose prompt is empty text proceeds to the
model exactly like any other request, producing one pipeline call with
the empty prompt (the only validation is the pydantic type shape). -/
theorem c3_amended_empty_prompt_reaches_model (s : ServerState) (env : Env)
    (pipeline : PipeFn) (seed : Option Int) (hs : s.sana_sprint = some pipeline) :
    (api_generate_image s env { prompt := "", seed := seed }).2.1.calls =
      [{ prompt := "", num_inference_steps := 2, generator := mkGenerator s.device seed }] := by
  rw [api_calls_loaded s env _ pipeline hs]
  rfl

/-- C3 witness: the concrete loaded state invoked on the empty prompt. -/
theorem c3_witness :
    loadedState.sana_sprint = some probePipe ∧
    (api_generate_image loadedState goodEnv { prompt := "", seed := none }).2.1.calls =
      [{ prompt := "", num_inference_steps := 2, generator := none }] :=
  ⟨rfl, c3_amended_empty_prompt_reaches_model loadedState goodEnv probePipe none rfl⟩

/-- C4: for every source image with positive dimensions, the center crop
to ratio 2/3 stays within the source bounds, is no larger than the source
in either dimension, matches the 2/3 ratio within one pixel of rounding,
and is centered within one pixel. -/
theorem c4_crop_within_bounds (w h : Nat) (hw : 1 ≤ w) (hh : 1 ≤ h) : cropWithinSpec w h := by
  unfold cropWithinSpec cropRect
  rw [cropTargets_eq]
  by_cases hc : h < 3 * w / 2
  · rw [if_pos hc]
    dsimp only
    omega
  · rw [if_neg hc]
    dsimp only
    omega

/-- C4 witness: the crop contract evaluated at a concrete 640 x 480
image. -/
theorem c4_witness : 1 ≤ 640 ∧ 1 ≤ 480 ∧ cropWithinSpec 640 480 :=
  ⟨by decide, by decide, c4_crop_within_bounds 640 480 (by decide) (by decide)⟩

/-- C5 counterexample: with the encoder binary absent, the failure is not
a distinct pre-flight `EncoderUnavailable` condition: the response is the
generic catch-all 500 (identical to the response produced by an unrelated
model failure with the same exception text), and it surfaces mid-request,
after the model was invoked and both temporary files were created. -/
theorem c5_counterexample :
    (api_generate_image loadedState envNoEncoder probeReq).1 =
      Resp.httpError 500 ("Image generation failed: " ++ fileNotFoundText) ∧
    (api_generate_image loadedState envNoEncoder probeReq).1 =
      (api_generate_image loadedState envSynthFail probeReq).1 ∧
    (api_generate_image loadedState envNoEncoder probeReq).2.1.calls =
      [{ prompt := "a cat", num_inference_steps := 2, generator := none }] ∧
    (api_generate_image loadedState envNoEncoder probeReq).2.1.bmpCreated = true ∧
    (api_generate_image loadedState envNoEncoder probeReq).2.1.jpgCreated = true := by
  refine ⟨?_, ?_, ?_, ?_, ?_⟩ <;>
    simp [api_generate_image, loadedState, envNoEncoder, envSynthFail, goodEnv, probeReq,
      gen_probe_eval, encodeTrace, mkGenerator, pipelineCallOf, fileNotFoundText]

/-- C5 amended: encoder absence is not detected at startup or before
use: it surfaces during request handling, after the model has been
invoked and both temporary files created, as the generic 500 whose detail
wraps the raw `FileNotFoundError` text with the same catch-all prefix
used for every other failure; no subprocess is launched. -/
theorem c5_amended_absent_encoder_generic_failure (s : ServerState) (env : Env)
    (req : GenerationRequest) (pipeline : PipeFn) (hs : s.sana_sprint = some pipeline)
    (hr : env.synthRaises = false) (hp : env.encoderPresent = false) :
    (api_generate_image s env req).1 =
      Resp.httpError 500 ("Image generation failed: " ++ fileNotFoundText) ∧
    (api_generate_image s env req).2.1.calls = [pipelineCallOf s.device req] ∧
    (api_generate_image s env req).2.1.bmpCreated = true ∧
    (api_generate_image s env req).2.1.jpgCreated = true ∧
    (api_generate_image s env req).2.1.encoderInvocation = none := by
  refine ⟨?_, ?_, ?_, ?_, ?_⟩ <;>
    simp [api_generate_image, hs, hr, hp, encodeTrace, generate_call, pipelineCallOf]

/-- C5 witness: the amended behavior at a concrete encoder-less
environment. -/
theorem c5_witness :
    loadedState.sana_sprint = some probePipe ∧ envNoEncoder.synthRaises = false ∧
    envNoEncoder.encoderPresent = false ∧
    (api_generate_image loadedState envNoEncoder probeReq).1 =
      Resp.httpError 500 ("Image generation failed: " ++ fileNotFoundText) :=
  ⟨rfl, rfl, rfl,
    (c5_amended_absent_encoder_generic_failure loadedState envNoEncoder probeReq probePipe
      rfl rfl rfl).1⟩

/-- C6: a `POST /generate` arriving while the model is not loaded
short-circuits to a 500 whose detail reports the model as unavailable,
with no pipeline call, no temporary files, and an unchanged state. -/
theorem c6_unavailable_short_circuit (s : ServerState) (env : Env) (req : GenerationRequest)
    (hs : s.sana_sprint = none) :
    api_generate_image s env req =
      (Resp.httpError 500 ("Image generation model not available"), Trace.empty, s) := by
  unfold api_generate_image
  rw [hs]

/-- C6 witness: the unloaded initial state short-circuits. -/
theorem c6_witness :
    api_generate_image initialState goodEnv probeReq =
      (Resp.httpError 500 ("Image generation model not available"), Trace.empty, initialState) :=
  c6_unavailable_short_circuit initialState goodEnv probeReq rfl

/-- C7: `/health` reports `model_loaded` false on the initial state, true
on every state produced by a successful `lifetime_start`, false again
after `lifetime_stop`, true on every state in which the model key is
present (covering every request handled while loaded), and request
handling never changes the server state. -/
theorem c7_health_tracks_lifecycle :
    (health_check initialState).model_loaded = false ∧
    (∀ cuda load mp s s1, lifetime_start cuda load mp s = Except.ok s1 →
      (health_check s1).model_loaded = true) ∧
    (∀ s : ServerState, (health_check (lifetime_stop s)).model_loaded = false) ∧
    (∀ s pipeline, ServerState.sana_sprint s = some pipeline →
      (health_check s).model_loaded = true) ∧
    (∀ s env req, (api_generate_image s env req).2.2 = s) := by
  refine ⟨rfl, ?_, fun s => rfl, ?_, ?_⟩
  · intro cuda load mp s s1 hok
    unfold lifetime_start at hok
    cases hl : load mp with
    | ok pipeline =>
        rw [hl] at hok
        cases hok
        rfl
    | error e =>
        rw [hl] at hok
        cases hok
  · intro s pipeline hs
    simp [health_check, hs]
  · intro s env req
    unfold api_generate_image
    cases hs : s.sana_sprint with
    | none => rfl
    | some pipeline =>
        by_cases hr : env.synthRaises <;> by_cases hp : env.encoderPresent <;>
          by_cases he : env.encoderExit = 0 <;> simp [hr, hp, he]

/-- C7 witness: the health flag across a concrete start/stop cycle, and a
concrete request leaving the state unchanged. -/
theorem c7_witness :
    (health_check startedState).model_loaded = true ∧
    (health_check (lifetime_stop startedState)).model_loaded = false ∧
    (health_check loadedState).model_loaded = true ∧
    (api_generate_image loadedState goodEnv probeReq).2.2 = loadedState :=
  ⟨c7_health_tracks_lifecycle.2.1 true okLoad modelPath initialState startedState rfl,
    c7_health_tracks_lifecycle.2.2.1 startedState,
    c7_health_tracks_lifecycle.2.2.2.1 loadedState probePipe rfl,
    c7_health_tracks_lifecycle.2.2.2.2 loadedState goodEnv probeReq⟩

/-- C8: whenever the handler reaches the encoder, the subprocess is
launched with exactly `cjpeg -quality 85 -progressive -outfile <tmpJpg>
<tmpBmp>`, the input having been saved as an uncompressed `BMP`; exit
code zero yields the success response and any nonzero exit code yields a
failure. -/
theorem c8_encoder_invocation_shape (s : ServerState) (env : Env) (req : GenerationRequest)
    (pipeline : PipeFn) (hs : s.sana_sprint = some pipeline)
    (hr : env.synthRaises = false) (hp : env.encoderPresent = true) :
    (api_generate_image s env req).2.1.encoderInvocation =
      some (["cjpeg", "-quality", "85", "-progressive", "-outfile", env.tmpJpg, env.tmpBmp]) ∧
    (api_generate_image s env req).2.1.bmpSavedFormat = some ("BMP") ∧
    (env.encoderExit = 0 ↔ ∃ c m, (api_generate_image s env req).1 = Resp.ok c m) := by
  by_cases he : env.encoderExit = 0 <;>
    simp [api_generate_image, hs, hr, hp, he, encodeTrace, cjpegArgs]

/-- C8 witness: the invocation shape and exit-code contract at a concrete
environment. -/
theorem c8_witness :
    loadedState.sana_sprint = some probePipe ∧ goodEnv.synthRaises = false ∧
    goodEnv.encoderPresent = true ∧
    (api_generate_image loadedState goodEnv probeReq).2.1.encoderInvocation =
      some (["cjpeg", "-quality", "85", "-progressive", "-outfile", "/tmp/b.jpg", "/tmp/a.bmp"]) :=
  ⟨rfl, rfl, rfl,
    (c8_encoder_invocation_shape loadedState goodEnv probeReq probePipe rfl rfl rfl).1⟩

/-- C9: every pipeline call the handler ever makes carries
`num_inference_steps = 2`, for every state, environment and request; the
step count is not taken from the request (whose only fields are `prompt`
and `seed`). -/
theorem c9_steps_fixed_two (s : ServerState) (env : Env) (req : GenerationRequest) :
    ((api_generate_image s env req).2.1.calls).all
      (fun c => c.num_inference_steps == 2) = true := by
  cases hs : s.sana_sprint with
  | none => simp [api_generate_image, hs, Trace.empty]
  | some pipeline =>
      rw [api_calls_loaded s env req pipeline hs]
      simp [pipelineCallOf]

/-- C10: a request with seed exactly `0` builds no generator, and the
handler treats it identically to a request with no seed: the full
observable outcome (response, trace, state) coincides. -/
theorem c10_seed_zero_equals_none :
    (∀ device : Option String, mkGenerator device (some 0) = mkGenerator device none) ∧
    (∀ (s : ServerState) (env : Env) (prompt : String),
      api_generate_image s env { prompt := prompt, seed := some 0 } =
        api_generate_image s env { prompt := prompt, seed := none }) := by
  constructor
  · intro d
    simp [mkGenerator]
  · intro s env p
    cases hs : s.sana_sprint with
    | none => simp [api_generate_image, hs]
    | some pipeline =>
        simp [api_generate_image, hs, pipelineCallOf, generate_image, mkGenerator, runPipeline]

end SanaApi
